import Mathlib

/-!
Shallow embedding of the turn-based action resolution core of the
roguelike repository (source file `actions.py`, tile data `tile_types.py`).

Each `*.perform` function below is a statement-by-statement translation of
the corresponding Python `perform` method.  Collaborator code of the
repository that is not in `src/` (the entity/inventory/equipment
components, the game map accessors and the game-world floor lifecycle) is
modelled from the specification; every such definition carries a doc
comment starting with `Modelled from the spec:`.

A Python `raise exceptions.Impossible(msg)` aborts resolution; the
embedding makes the world state at the moment of the raise observable by
carrying it in the `Outcome.impossible` constructor, so that
"no mutation occurred before the failure" is a provable statement.
Programming-contract violations (attribute errors on a missing
capability, acting entity not registered in the world) are `Outcome.bug`:
the spec classifies them as fail-fast panics, not recoverable rejections.
-/

namespace Rogue

/-- Equipment categories, as in the repository's `equipment_types`
module: a weapon slot and an armor slot. -/
inductive EquipmentType where
  | weapon
  | armor
deriving DecidableEq, Repr

/-- Narration style tags, standing for the entries of the repository's
`color` module that `actions.py` uses (plus the default white). -/
inductive MColor where
  | white
  | playerAtk
  | enemyAtk
  | invalid
  | descend
deriving DecidableEq, Repr

/-- Fighter component: current hit points, power, defense. -/
structure Fighter where
  hp : Int
  power : Int
  defense : Int
deriving DecidableEq, Repr

/-- An Item entity.  `id` is the identity surrogate for Python object
identity; `x, y` are its position when it lies on the ground;
`consumable` and `equippable` are its optional capabilities
(capability-polymorphism: either, both or neither may be present). -/
structure Item where
  id : Nat
  name : String
  x : Int
  y : Int
  consumable : Bool
  equippable : Option EquipmentType
deriving DecidableEq, Repr

/-- Modelled from the spec: the equipment component is a mapping of
equipment slot to Item or empty; there is one slot per equipment
category.  Slots store the equipped item's identity. -/
structure Equipment where
  weaponId : Option Nat
  armorId : Option Nat
deriving DecidableEq, Repr

/-- Modelled from the spec: `item_is_equipped` — whether the given item
occupies either equipment slot. -/
def Equipment.item_is_equipped (eq : Equipment) (itemId : Nat) : Bool :=
  eq.weaponId == some itemId || eq.armorId == some itemId

/-- Modelled from the spec: `toggle_equip` — toggle semantics: equipping
an item already equipped in its slot unequips it, and vice versa.  Calling
it on an item with no equippable capability is a contract violation
(`none`). -/
def Equipment.toggle_equip (eq : Equipment) (item : Item) : Option Equipment :=
  match item.equippable with
  | none => none
  | some EquipmentType.weapon =>
      if eq.weaponId == some item.id then some { eq with weaponId := none }
      else some { eq with weaponId := some item.id }
  | some EquipmentType.armor =>
      if eq.armorId == some item.id then some { eq with armorId := none }
      else some { eq with armorId := some item.id }

/-- An Actor entity: position, movement-blocking flag, inventory
(ordered sequence with fixed capacity), equipment, fighter stats.
`id` is the identity surrogate for Python object identity. -/
structure Actor where
  id : Nat
  name : String
  x : Int
  y : Int
  blocksMovement : Bool
  inventoryItems : List Item
  inventoryCapacity : Nat
  equipment : Equipment
  fighter : Fighter
deriving DecidableEq, Repr

/-- The game map: dimensions, the walkable flag of each tile
(`tiles[x][y]`, mirroring the `walkable` field of the `tile_dt` records
of `tile_types.py`), and the per-floor stair coordinates. -/
structure GameMap where
  width : Nat
  height : Nat
  tiles : List (List Bool)
  downstairsLocation : Int × Int
  upstairsLocation : Int × Int
deriving DecidableEq, Repr

/-- Modelled from the spec: `in_bounds(x, y)` — destination inside the
map rectangle. -/
def GameMap.in_bounds (m : GameMap) (x y : Int) : Bool :=
  0 ≤ x && x < (m.width : Int) && 0 ≤ y && y < (m.height : Int)

/-- Guarded tile lookup: the walkable flag at `(x, y)`, `none` when the
index is outside the stored grid.  The Python source indexes the numpy
tile array directly; the guard makes the out-of-range case observable. -/
def GameMap.tileWalkable? (m : GameMap) (x y : Int) : Option Bool :=
  if x < 0 || y < 0 then none
  else match m.tiles.get? x.toNat with
       | none => none
       | some col => col.get? y.toNat

/-- The tile grid really has the advertised dimensions. -/
def GameMap.WF (m : GameMap) : Prop :=
  m.tiles.length = m.width ∧ ∀ col ∈ m.tiles, col.length = m.height

instance (m : GameMap) : Decidable m.WF := by
  unfold GameMap.WF; infer_instance

/-- The world state an action resolves against: the map, the entity
collections (actors and ground items), the identity of the
player-controlled actor, the floor lifecycle state and the message log. -/
structure State where
  gameMap : GameMap
  actors : List Actor
  items : List Item
  playerId : Nat
  floorNumber : Nat
  generatedFloors : Nat
  log : List (String × MColor)
deriving DecidableEq, Repr

/-- Look up an actor by identity. -/
def State.findActor (s : State) (i : Nat) : Option Actor :=
  s.actors.find? (fun a => a.id == i)

/-- Mutate the actor with identity `i` in place. -/
def State.updateActor (s : State) (i : Nat) (f : Actor → Actor) : State :=
  { s with actors := s.actors.map (fun a => if a.id == i then f a else a) }

/-- Modelled from the spec: `actor_at(x, y)` — the actor (if any)
occupying the location; first match in the collection's iteration
order. -/
def State.get_actor_at_location (s : State) (x y : Int) : Option Actor :=
  s.actors.find? (fun a => a.x == x && a.y == y)

/-- Modelled from the spec: `blocking_entity_at(x, y)` — the
movement-blocking entity (if any) at the location.  Ground items do not
block movement. -/
def State.get_blocking_entity_at_location (s : State) (x y : Int) : Option Actor :=
  s.actors.find? (fun a => a.blocksMovement && a.x == x && a.y == y)

/-- Modelled from the spec: the Narration Sink — `emit(text, style)`,
fire-and-forget, appended to the log. -/
def State.addMessage (s : State) (text : String) (c : MColor) : State :=
  { s with log := s.log ++ [(text, c)] }

/-- Modelled from the spec: `next_floor_exists()` — whether a floor
below the current one has already been generated. -/
def State.next_floor_exists (s : State) : Bool :=
  s.floorNumber < s.generatedFloors

/-- Modelled from the spec: `descend_floor()` — move to the existing
next floor; the player is positioned per the new-floor contract (on the
new floor's up-stairs; map generation itself is out of scope, so the map
structure is kept). -/
def State.descend_floor (s : State) : State :=
  let s1 := { s with floorNumber := s.floorNumber + 1 }
  s1.updateActor s1.playerId
    (fun a => { a with x := s1.gameMap.upstairsLocation.1,
                       y := s1.gameMap.upstairsLocation.2 })

/-- Modelled from the spec: `generate_floor()` — generate the next floor
and move to it; the floor number increments and the deepest generated
floor is recorded. -/
def State.generate_floor (s : State) : State :=
  let s1 := { s with floorNumber := s.floorNumber + 1,
                     generatedFloors := s.floorNumber + 1 }
  s1.updateActor s1.playerId
    (fun a => { a with x := s1.gameMap.upstairsLocation.1,
                       y := s1.gameMap.upstairsLocation.2 })

/-- Modelled from the spec: `ascend_floor()` — ascend one floor; the
player appears on the previous floor's down-stairs. -/
def State.ascend_floor (s : State) : State :=
  let s1 := { s with floorNumber := s.floorNumber - 1 }
  s1.updateActor s1.playerId
    (fun a => { a with x := s1.gameMap.downstairsLocation.1,
                       y := s1.gameMap.downstairsLocation.2 })

/-- Outcome of resolving one action: success with the new world state,
an `Impossible(msg)` rejection carrying the world state at the moment of
the raise, or a programming-contract violation (fail-fast panic). -/
inductive Outcome where
  | ok (s : State)
  | impossible (s : State) (msg : String)
  | bug
deriving DecidableEq, Repr

/-- `Impossible` message of `MovementAction`. -/
def msgBlocked : String := "That way is blocked."

/-- `Impossible` message of `MeleeAction`. -/
def msgNothingToAttack : String := "Nothing to attack"

/-- `Impossible` message of `PickupAction` on a full inventory. -/
def msgInventoryFull : String := "Your inventory is full."

/-- `Impossible` message of `PickupAction` with no item underfoot. -/
def msgNothingHere : String := "There is nothing here to pick up."

/-- `Impossible` message of `TakeStairsAction` on the down staircase
going up. -/
def msgCannotGoUp : String := "You cannot go up this staircase."

/-- `Impossible` message of `TakeStairsAction` on the up staircase at
floor 1. -/
def msgMissionIncomplete : String := "You have not finished your mission. You may not leave."

/-- Warning emitted by `DropAction` on worn armor. -/
def msgCannotDropWorn : String := "You cannot drop something you are wearing."

/-- Narration for descending the staircase. -/
def msgDescend : String := "You descend the staircase."

/-- Narration for ascending the staircase. -/
def msgAscend : String := "You ascend the staircase."

/-- Pickup narration naming the item. -/
def pickupMsg (name : String) : String :=
  "You pick up the " ++ name ++ "."

/-- Melee narration for a damaging hit. -/
def attackDamageMsg (desc : String) (damage : Int) : String :=
  desc ++ " for " ++ toString damage ++ " hit points."

/-- Melee narration for a hit that does no damage. -/
def attackNoDamageMsg (desc : String) : String :=
  desc ++ " but does no damage."

/-- Melee attack description. -/
def attackDesc (attacker target : String) : String :=
  attacker.capitalize ++ " attacks " ++ target

/-- The scan loop of `PickupAction.perform`: iterate the world item
collection; at the first item under the actor check capacity, then
remove it from the world collection, append it to the inventory and
narrate; falling off the end raises
`Impossible("There is nothing here to pick up.")`.  The world removal is
by item identity (`entities.remove(item)` in the source). -/
def pickupLoop (s : State) (eid : Nat) (e : Actor) : List Item → Outcome
  | [] => Outcome.impossible s msgNothingHere
  | item :: rest =>
    if e.x == item.x && e.y == item.y then
      if e.inventoryCapacity ≤ e.inventoryItems.length then
        Outcome.impossible s msgInventoryFull
      else
        let s1 := { s with items := s.items.eraseP (fun it => it.id == item.id) }
        let s2 := s1.updateActor eid
          (fun a => { a with inventoryItems := a.inventoryItems ++ [item] })
        Outcome.ok (s2.addMessage (pickupMsg item.name) MColor.white)
    else
      pickupLoop s eid e rest

/-- `PickupAction.perform`. -/
def PickupAction.perform (s : State) (eid : Nat) : Outcome :=
  match s.findActor eid with
  | none => Outcome.bug
  | some e => pickupLoop s eid e s.items

/-- `ItemAction.perform`: delegates to the item's consumable capability
when present, else a no-op success.  Modelled from the spec: the
consumable's own activation logic is an external collaborator out of
scope for this core; the invocation is modelled as completing without a
core-visible effect. -/
def ItemAction.perform (s : State) (eid : Nat) (item : Item)
    (targetXY : Option (Int × Int)) : Outcome :=
  match s.findActor eid with
  | none => Outcome.bug
  | some _ =>
    let _target := targetXY.getD (0, 0)
    if item.consumable then Outcome.ok s else Outcome.ok s

/-- Modelled from the spec: `Inventory.drop` — remove the item from the
inventory sequence and re-add it to the world entity collection at the
Actor's current position (ownership transfer back).  An item absent from
the inventory is a contract violation. -/
def inventoryDrop (s : State) (eid : Nat) (itemId : Nat) : Outcome :=
  match s.findActor eid with
  | none => Outcome.bug
  | some e =>
    match e.inventoryItems.find? (fun it => it.id == itemId) with
    | none => Outcome.bug
    | some item =>
      let s1 := s.updateActor eid
        (fun a => { a with inventoryItems := a.inventoryItems.eraseP (fun it => it.id == itemId) })
      Outcome.ok { s1 with items := s1.items ++ [{ item with x := e.x, y := e.y }] }

/-- `DropAction.perform`: if the item is equipped, worn armor only draws
a warning narration; other equipped items are unequipped
(`toggle_equip`) and then dropped; unequipped items are dropped
directly.  Reading the equipment category of an item with no equippable
capability is a contract violation (attribute error in the source). -/
def DropAction.perform (s : State) (eid : Nat) (item : Item) : Outcome :=
  match s.findActor eid with
  | none => Outcome.bug
  | some e =>
    if e.equipment.item_is_equipped item.id then
      match item.equippable with
      | none => Outcome.bug
      | some ty =>
        if ty == EquipmentType.armor then
          Outcome.ok (s.addMessage msgCannotDropWorn MColor.invalid)
        else
          match e.equipment.toggle_equip item with
          | none => Outcome.bug
          | some eq1 =>
            let s1 := s.updateActor eid (fun a => { a with equipment := eq1 })
            inventoryDrop s1 eid item.id
    else
      inventoryDrop s eid item.id

/-- `EquipAction.perform`: toggles equip state via the equipment
capability. -/
def EquipAction.perform (s : State) (eid : Nat) (item : Item) : Outcome :=
  match s.findActor eid with
  | none => Outcome.bug
  | some e =>
    match e.equipment.toggle_equip item with
    | none => Outcome.bug
    | some eq1 => Outcome.ok (s.updateActor eid (fun a => { a with equipment := eq1 }))

/-- `WaitAction.perform`: no-op success. -/
def WaitAction.perform (s : State) (_eid : Nat) : Outcome :=
  Outcome.ok s

/-- Second `if` block of `TakeStairsAction.perform` (the up-staircase
check), evaluated against the state left by the first block. -/
def takeStairsUpCheck (s : State) (eid : Nat) (downward : Bool) : Outcome :=
  match s.findActor eid with
  | none => Outcome.bug
  | some e =>
    if (e.x, e.y) = s.gameMap.upstairsLocation then
      if downward then
        Outcome.ok s
      else
        if s.floorNumber = 1 then
          Outcome.impossible s msgMissionIncomplete
        else
          Outcome.ok (s.ascend_floor.addMessage msgAscend MColor.descend)
    else
      Outcome.ok s

/-- `TakeStairsAction.perform`: the down-staircase check (descend to the
existing next floor or generate one, or reject going up), then — both
stair checks are sequential and non-exclusive in the source — the
up-staircase check. -/
def TakeStairsAction.perform (s : State) (eid : Nat) (downward : Bool) : Outcome :=
  match s.findActor eid with
  | none => Outcome.bug
  | some e =>
    if (e.x, e.y) = s.gameMap.downstairsLocation then
      if downward then
        let s1 := if s.next_floor_exists then s.descend_floor else s.generate_floor
        let s2 := s1.addMessage msgDescend MColor.descend
        takeStairsUpCheck s2 eid downward
      else
        Outcome.impossible s msgCannotGoUp
    else
      takeStairsUpCheck s eid downward

/-- `MeleeAction.perform`: require a target actor at the destination;
damage = attacker power − defender defense; apply a positive damage as a
hit-point reduction, narrating with player/enemy attack styling. -/
def MeleeAction.perform (s : State) (eid : Nat) (dx dy : Int) : Outcome :=
  match s.findActor eid with
  | none => Outcome.bug
  | some e =>
    match s.get_actor_at_location (e.x + dx) (e.y + dy) with
    | none => Outcome.impossible s msgNothingToAttack
    | some target =>
      let damage := e.fighter.power - target.fighter.defense
      let desc := attackDesc e.name target.name
      let atkColor := if e.id == s.playerId then MColor.playerAtk else MColor.enemyAtk
      if 0 < damage then
        let s1 := s.addMessage (attackDamageMsg desc damage) atkColor
        Outcome.ok (s1.updateActor target.id
          (fun a => { a with fighter := { a.fighter with hp := a.fighter.hp - damage } }))
      else
        Outcome.ok (s.addMessage (attackNoDamageMsg desc) atkColor)

/-- `MovementAction.perform`: reject an out-of-bounds destination, then
a non-walkable tile, then a movement-blocking entity; otherwise commit
the position update by the offset.  The tile lookup only happens after
the bounds check; its out-of-range branch is a panic. -/
def MovementAction.perform (s : State) (eid : Nat) (dx dy : Int) : Outcome :=
  match s.findActor eid with
  | none => Outcome.bug
  | some e =>
    let destX := e.x + dx
    let destY := e.y + dy
    if !(s.gameMap.in_bounds destX destY) then
      Outcome.impossible s msgBlocked
    else
      match s.gameMap.tileWalkable? destX destY with
      | none => Outcome.bug
      | some walkable =>
        if !walkable then
          Outcome.impossible s msgBlocked
        else if (s.get_blocking_entity_at_location destX destY).isSome then
          Outcome.impossible s msgBlocked
        else
          Outcome.ok (s.updateActor eid (fun a => { a with x := a.x + dx, y := a.y + dy }))

/-- `BumpAction.perform`: dispatch on whether an actor occupies the
destination — melee if yes, movement if no. -/
def BumpAction.perform (s : State) (eid : Nat) (dx dy : Int) : Outcome :=
  match s.findActor eid with
  | none => Outcome.bug
  | some e =>
    if (s.get_actor_at_location (e.x + dx) (e.y + dy)).isSome then
      MeleeAction.perform s eid dx dy
    else
      MovementAction.perform s eid dx dy

/-- The action variants of the hierarchy, each bound at construction to
its acting entity and parameters. -/
inductive GAction where
  | pickup (eid : Nat)
  | itemUse (eid : Nat) (item : Item) (targetXY : Option (Int × Int))
  | drop (eid : Nat) (item : Item)
  | equip (eid : Nat) (item : Item)
  | wait (eid : Nat)
  | takeStairs (eid : Nat) (downward : Bool)
  | melee (eid : Nat) (dx dy : Int)
  | movement (eid : Nat) (dx dy : Int)
  | bump (eid : Nat) (dx dy : Int)
deriving DecidableEq, Repr

/-- Resolve one action against a world state. -/
def GAction.perform : GAction → State → Outcome
  | GAction.pickup eid, s => PickupAction.perform s eid
  | GAction.itemUse eid item t, s => ItemAction.perform s eid item t
  | GAction.drop eid item, s => DropAction.perform s eid item
  | GAction.equip eid item, s => EquipAction.perform s eid item
  | GAction.wait eid, s => WaitAction.perform s eid
  | GAction.takeStairs eid d, s => TakeStairsAction.perform s eid d
  | GAction.melee eid dx dy, s => MeleeAction.perform s eid dx dy
  | GAction.movement eid dx dy, s => MovementAction.perform s eid dx dy
  | GAction.bump eid dx dy, s => BumpAction.perform s eid dx dy

/-! Concrete demonstration data, used to evaluate the embedding on
closed inputs. -/

/-- A 3-by-3 map, fully walkable except the tile at (2, 2); stairs down
at (2, 0), up at (0, 0). -/
def demoMap : GameMap :=
  { width := 3, height := 3,
    tiles := [[true, true, true], [true, true, true], [true, true, false]],
    downstairsLocation := (2, 0),
    upstairsLocation := (0, 0) }

/-- A weapon-category item, equipped by the demo player. -/
def demoSword : Item :=
  { id := 20, name := "sword", x := 0, y := 0, consumable := false,
    equippable := some EquipmentType.weapon }

/-- An armor-category item, worn by the demo player. -/
def demoArmor : Item :=
  { id := 21, name := "chain mail", x := 0, y := 0, consumable := false,
    equippable := some EquipmentType.armor }

/-- A consumable item lying on the demo player's tile. -/
def demoPotion : Item :=
  { id := 10, name := "health potion", x := 1, y := 1, consumable := true,
    equippable := none }

/-- The player-controlled actor at (1, 1) with a sword and chain mail. -/
def demoPlayer : Actor :=
  { id := 0, name := "player", x := 1, y := 1, blocksMovement := true,
    inventoryItems := [demoSword, demoArmor],
    inventoryCapacity := 3,
    equipment := { weaponId := some 20, armorId := some 21 },
    fighter := { hp := 30, power := 5, defense := 2 } }

/-- A hostile actor at (2, 1). -/
def demoOrc : Actor :=
  { id := 1, name := "orc", x := 2, y := 1, blocksMovement := true,
    inventoryItems := [], inventoryCapacity := 0,
    equipment := { weaponId := none, armorId := none },
    fighter := { hp := 10, power := 3, defense := 0 } }

/-- Demo world: player and orc on the demo map, a potion on the floor. -/
def demoState : State :=
  { gameMap := demoMap, actors := [demoPlayer, demoOrc], items := [demoPotion],
    playerId := 0, floorNumber := 1, generatedFloors := 1, log := [] }

/-- The demo player moved onto the up-stairs tile. -/
def demoPlayerUp : Actor :=
  { demoPlayer with x := 0, y := 0 }

/-- Demo world with the player standing on the up-stairs at floor 1. -/
def demoStateUp : State :=
  { demoState with actors := [demoPlayerUp, demoOrc] }

/-- The demo player with a full inventory (capacity equals length). -/
def demoPlayerFull : Actor :=
  { demoPlayer with inventoryCapacity := 2 }

/-- Demo world whose acting player has a full inventory. -/
def demoStateFull : State :=
  { demoState with actors := [demoPlayerFull, demoOrc] }

end Rogue

namespace Rogue

/-! Helper lemmas about actor lookup and in-place update. -/

/-- Updating the actor with identity `i` commutes with looking it up,
provided the update preserves the identity. -/
theorem find?_map_update (l : List Actor) (i : Nat) (f : Actor → Actor)
    (hf : ∀ a, (f a).id = a.id) :
    (l.map (fun a => if a.id == i then f a else a)).find? (fun a => a.id == i)
      = (l.find? (fun a => a.id == i)).map f := by
  induction l with
  | nil => rfl
  | cons a l ih =>
    simp only [List.map_cons]
    by_cases h : a.id = i
    · rw [if_pos (by simp [h]),
          List.find?_cons_of_pos _ (by simp [hf, h]),
          List.find?_cons_of_pos _ (by simp [h])]
      rfl
    · rw [if_neg (by simp [h]),
          List.find?_cons_of_neg _ (by simp [h]),
          List.find?_cons_of_neg _ (by simp [h])]
      exact ih

/-- A member of a list with no duplicate identities is what lookup by
its identity returns. -/
theorem find?_eq_of_mem_nodup (l : List Actor) (a : Actor)
    (hmem : a ∈ l) (hnd : (l.map Actor.id).Nodup) :
    l.find? (fun b => b.id == a.id) = some a := by
  induction l with
  | nil => simp at hmem
  | cons b l ih =>
    simp only [List.map_cons, List.nodup_cons] at hnd
    rcases List.mem_cons.mp hmem with h | h
    · subst h
      exact List.find?_cons_of_pos _ (by simp)
    · have hne : ¬ b.id = a.id := by
        intro hc
        exact hnd.1 (by rw [hc]; exact List.mem_map_of_mem Actor.id h)
      rw [List.find?_cons_of_neg _ (by simp [hne])]
      exact ih h hnd.2

theorem findActor_updateActor_self (s : State) (i : Nat) (f : Actor → Actor)
    (hf : ∀ a, (f a).id = a.id) :
    (s.updateActor i f).findActor i = (s.findActor i).map f :=
  find?_map_update s.actors i f hf

theorem findActor_addMessage (s : State) (m : String) (c : MColor) (i : Nat) :
    (s.addMessage m c).findActor i = s.findActor i := rfl

/-- Two identity-preserving in-place updates of the same actor, seen
through lookup. -/
theorem find?_double_update (l : List Actor) (i : Nat) (f g : Actor → Actor)
    (hf : ∀ a, (f a).id = a.id) (hg : ∀ a, (g a).id = a.id) (e : Actor)
    (he : l.find? (fun a => a.id == i) = some e) :
    ((l.map (fun a => if a.id == i then f a else a)).map
        (fun a => if a.id == i then g a else a)).find? (fun a => a.id == i)
      = some (g (f e)) := by
  rw [find?_map_update _ _ g hg, find?_map_update _ _ f hf, he]
  rfl

/-- After erasing the element with identity `i` from a list of items
with no duplicate identities, no element with identity `i` remains. -/
theorem id_not_mem_eraseP (l : List Item) (i : Nat) (hnd : (l.map Item.id).Nodup) :
    i ∉ (l.eraseP (fun it => it.id == i)).map Item.id := by
  induction l with
  | nil => simp
  | cons b rest ih =>
    simp only [List.map_cons, List.nodup_cons] at hnd
    by_cases hb : b.id = i
    · rw [List.eraseP_cons_of_pos (by simp [hb])]
      rw [← hb]
      exact hnd.1
    · rw [List.eraseP_cons_of_neg (by simp [hb])]
      simp only [List.map_cons, List.mem_cons]
      rintro (h | h)
      · exact hb h.symm
      · exact ih hnd.2 h

/-- A well-formed map's guarded tile lookup succeeds at every in-bounds
coordinate. -/
theorem tileWalkable?_isSome (m : GameMap) (x y : Int) (hwf : m.WF)
    (hb : m.in_bounds x y = true) : (m.tileWalkable? x y).isSome = true := by
  obtain ⟨hlen, hcols⟩ := hwf
  simp only [GameMap.in_bounds, Bool.and_eq_true, decide_eq_true_eq] at hb
  obtain ⟨⟨⟨hx0, hxw⟩, hy0⟩, hyh⟩ := hb
  unfold GameMap.tileWalkable?
  rw [if_neg (by simp only [Bool.or_eq_true, decide_eq_true_eq]; omega)]
  have hx : x.toNat < m.tiles.length := by omega
  rw [List.get?_eq_get hx]
  have hmem : m.tiles.get ⟨x.toNat, hx⟩ ∈ m.tiles := m.tiles.get_mem _ _
  have hy : y.toNat < (m.tiles.get ⟨x.toNat, hx⟩).length := by
    rw [hcols _ hmem]; omega
  show ((m.tiles.get ⟨x.toNat, hx⟩).get? y.toNat).isSome = true
  rw [List.get?_eq_get hy]
  rfl

/-! Helper lemmas about the pickup scan loop. -/

/-- The scan loop falls through to the no-item rejection when no item of
the scanned list lies under the actor. -/
theorem pickupLoop_none (s : State) (eid : Nat) (e : Actor) (l : List Item)
    (h : ∀ it ∈ l, ¬(e.x == it.x && e.y == it.y) = true) :
    pickupLoop s eid e l = Outcome.impossible s msgNothingHere := by
  induction l with
  | nil => rfl
  | cons b rest ih =>
    unfold pickupLoop
    rw [if_neg (h b (List.mem_cons_self _ _))]
    exact ih (fun it hit => h it (List.mem_cons_of_mem _ hit))

/-- The scan loop acts on the first item under the actor in scan order:
capacity check, then the ownership transfer and the narration. -/
theorem pickupLoop_found (s : State) (eid : Nat) (e : Actor) (l : List Item) (item : Item)
    (h : l.find? (fun it => e.x == it.x && e.y == it.y) = some item) :
    pickupLoop s eid e l =
      if e.inventoryCapacity ≤ e.inventoryItems.length then
        Outcome.impossible s msgInventoryFull
      else
        Outcome.ok ((({ s with items := s.items.eraseP (fun it => it.id == item.id) }).updateActor eid
          (fun a => { a with inventoryItems := a.inventoryItems ++ [item] })).addMessage
            (pickupMsg item.name) MColor.white) := by
  induction l with
  | nil => simp at h
  | cons b rest ih =>
    by_cases hb : (e.x == b.x && e.y == b.y) = true
    · rw [@List.find?_cons_of_pos Item (fun it => e.x == it.x && e.y == it.y) b rest hb] at h
      injection h with h
      subst h
      unfold pickupLoop
      rw [if_pos hb]
    · rw [@List.find?_cons_of_neg Item (fun it => e.x == it.x && e.y == it.y) b rest hb] at h
      unfold pickupLoop
      rw [if_neg hb]
      exact ih h

/-- Both rejections of the scan loop carry the world state it was
started with. -/
theorem pickupLoop_impossible (s : State) (eid : Nat) (e : Actor) (l : List Item)
    (s' : State) (msg : String)
    (h : pickupLoop s eid e l = Outcome.impossible s' msg) : s' = s := by
  induction l with
  | nil =>
    unfold pickupLoop at h
    injection h with h1 h2
    exact h1.symm
  | cons b rest ih =>
    unfold pickupLoop at h
    by_cases hb : (e.x == b.x && e.y == b.y) = true
    · rw [if_pos hb] at h
      by_cases hc : e.inventoryCapacity ≤ e.inventoryItems.length
      · rw [if_pos hc] at h
        injection h with h1 h2
        exact h1.symm
      · rw [if_neg hc] at h
        exact absurd h (by simp)
    · rw [if_neg hb] at h
      exact ih h

end Rogue

namespace Rogue

/-! Helper lemmas: which world state an `Impossible` rejection carries,
per action variant. -/

/-- The inventory drop primitive never rejects: it succeeds or panics. -/
theorem inventoryDrop_ne_impossible (s : State) (eid i : Nat) (s' : State) (msg : String) :
    inventoryDrop s eid i ≠ Outcome.impossible s' msg := by
  unfold inventoryDrop
  split
  · simp
  · split
    · simp
    · simp

theorem pickup_impossible_eq (s : State) (eid : Nat) (s' : State) (msg : String)
    (h : PickupAction.perform s eid = Outcome.impossible s' msg) : s' = s := by
  unfold PickupAction.perform at h
  split at h
  · simp at h
  · exact pickupLoop_impossible _ _ _ _ _ _ h

theorem itemUse_impossible_eq (s : State) (eid : Nat) (item : Item)
    (t : Option (Int × Int)) (s' : State) (msg : String)
    (h : ItemAction.perform s eid item t = Outcome.impossible s' msg) : s' = s := by
  unfold ItemAction.perform at h
  split at h
  · simp at h
  · split at h
    · simp at h
    · simp at h

theorem equip_impossible_eq (s : State) (eid : Nat) (item : Item) (s' : State) (msg : String)
    (h : EquipAction.perform s eid item = Outcome.impossible s' msg) : s' = s := by
  unfold EquipAction.perform at h
  split at h
  · simp at h
  · split at h
    · simp at h
    · simp at h

theorem drop_impossible_eq (s : State) (eid : Nat) (item : Item) (s' : State) (msg : String)
    (h : DropAction.perform s eid item = Outcome.impossible s' msg) : s' = s := by
  unfold DropAction.perform at h
  split at h
  · simp at h
  · split at h
    · split at h
      · simp at h
      · split at h
        · simp at h
        · split at h
          · simp at h
          · exact absurd h (inventoryDrop_ne_impossible _ _ _ _ _)
    · exact absurd h (inventoryDrop_ne_impossible _ _ _ _ _)

/-- The up-staircase check only rejects going up, and its rejection
carries the state it was entered with. -/
theorem takeStairsUpCheck_impossible_eq (s : State) (eid : Nat) (d : Bool)
    (s' : State) (msg : String)
    (h : takeStairsUpCheck s eid d = Outcome.impossible s' msg) : s' = s ∧ d = false := by
  unfold takeStairsUpCheck at h
  split at h
  · simp at h
  · split at h
    · split at h
      · simp at h
      · split at h
        · next hdw _ =>
          injection h with h1 _
          exact ⟨h1.symm, by simpa using hdw⟩
        · simp at h
    · simp at h

theorem takeStairs_impossible_eq (s : State) (eid : Nat) (d : Bool) (s' : State) (msg : String)
    (h : TakeStairsAction.perform s eid d = Outcome.impossible s' msg) : s' = s := by
  unfold TakeStairsAction.perform at h
  split at h
  · simp at h
  · split at h
    · split at h
      · next hdw =>
        obtain ⟨h1, h2⟩ := takeStairsUpCheck_impossible_eq _ _ _ _ _ h
        rw [h2] at hdw
        simp at hdw
      · injection h with h1 _
        exact h1.symm
    · exact (takeStairsUpCheck_impossible_eq _ _ _ _ _ h).1

theorem melee_impossible_eq (s : State) (eid : Nat) (dx dy : Int) (s' : State) (msg : String)
    (h : MeleeAction.perform s eid dx dy = Outcome.impossible s' msg) : s' = s := by
  unfold MeleeAction.perform at h
  split at h
  · simp at h
  · split at h
    · injection h with h1 _
      exact h1.symm
    · split at h
      all_goals
        dsimp only at h
        split at h <;> simp at h

theorem movement_impossible_eq (s : State) (eid : Nat) (dx dy : Int) (s' : State) (msg : String)
    (h : MovementAction.perform s eid dx dy = Outcome.impossible s' msg) : s' = s := by
  unfold MovementAction.perform at h
  split at h
  · simp at h
  · dsimp only at h
    split at h
    · injection h with h1 _
      exact h1.symm
    · split at h
      · simp at h
      · split at h
        · injection h with h1 _
          exact h1.symm
        · split at h
          · injection h with h1 _
            exact h1.symm
          · simp at h

theorem bump_impossible_eq (s : State) (eid : Nat) (dx dy : Int) (s' : State) (msg : String)
    (h : BumpAction.perform s eid dx dy = Outcome.impossible s' msg) : s' = s := by
  unfold BumpAction.perform at h
  split at h
  · simp at h
  · split at h
    · exact melee_impossible_eq _ _ _ _ _ _ h
    · exact movement_impossible_eq _ _ _ _ _ _ h

end Rogue

namespace Rogue

/-! The claims. -/

/-- C1: resolving a BumpAction produces exactly the outcome of a
MeleeAction with the same entity and offset when an actor occupies the
destination tile, and exactly the outcome of a MovementAction with the
same entity and offset when no actor occupies the destination. -/
theorem bump_dispatch_equiv (s : State) (eid : Nat) (dx dy : Int) (e : Actor)
    (he : s.findActor eid = some e) :
    ((s.get_actor_at_location (e.x + dx) (e.y + dy)).isSome = true →
        BumpAction.perform s eid dx dy = MeleeAction.perform s eid dx dy) ∧
    (s.get_actor_at_location (e.x + dx) (e.y + dy) = none →
        BumpAction.perform s eid dx dy = MovementAction.perform s eid dx dy) := by
  unfold BumpAction.perform
  rw [he]
  constructor
  · intro h
    simp [h]
  · intro h
    simp [h]

/-- C1 witness: in the demo world an actor stands at the bump
destination and the bump outcome equals the melee outcome. -/
theorem bump_dispatch_equiv_witness :
    (demoState.get_actor_at_location (demoPlayer.x + 1) (demoPlayer.y + 0)).isSome = true ∧
    BumpAction.perform demoState 0 1 0 = MeleeAction.perform demoState 0 1 0 :=
  ⟨rfl, (bump_dispatch_equiv demoState 0 1 0 demoPlayer rfl).1 rfl⟩

/-- C2: whichever action variant is resolved against whichever world
state, an `Impossible` rejection carries a world state equal to the one
resolution started from — no entity collection, actor field, floor
number or log entry has been mutated when the failure surfaces. -/
theorem impossible_no_mutation (a : GAction) (s s' : State) (msg : String)
    (h : a.perform s = Outcome.impossible s' msg) : s' = s := by
  cases a with
  | pickup eid => exact pickup_impossible_eq _ _ _ _ h
  | itemUse eid item t => exact itemUse_impossible_eq s eid item t s' msg h
  | drop eid item => exact drop_impossible_eq _ _ _ _ _ h
  | equip eid item => exact equip_impossible_eq _ _ _ _ _ h
  | wait eid => simp [GAction.perform, WaitAction.perform] at h
  | takeStairs eid d => exact takeStairs_impossible_eq _ _ _ _ _ h
  | melee eid dx dy => exact melee_impossible_eq _ _ _ _ _ _ h
  | movement eid dx dy => exact movement_impossible_eq _ _ _ _ _ _ h
  | bump eid dx dy => exact bump_impossible_eq _ _ _ _ _ _ h

/-- C2 witness: moving the demo player into the wall tile rejects and
the carried state is the original world. -/
theorem impossible_no_mutation_witness :
    (GAction.movement 0 1 1).perform demoState = Outcome.impossible demoState msgBlocked ∧
    demoState = demoState :=
  ⟨rfl, impossible_no_mutation (GAction.movement 0 1 1) demoState demoState msgBlocked rfl⟩

/-- C3: a MovementAction to a destination that is out of bounds, on a
non-walkable tile, or occupied by a movement-blocking entity rejects
with the blocked message and carries the unchanged state; to a
destination passing all three checks it succeeds and the actor's
position becomes exactly (x+dx, y+dy). -/
theorem movement_spec (s : State) (eid : Nat) (dx dy : Int) (e : Actor)
    (hwf : s.gameMap.WF) (he : s.findActor eid = some e) :
    (¬ (s.gameMap.in_bounds (e.x + dx) (e.y + dy) = true
          ∧ s.gameMap.tileWalkable? (e.x + dx) (e.y + dy) = some true
          ∧ s.get_blocking_entity_at_location (e.x + dx) (e.y + dy) = none) →
        MovementAction.perform s eid dx dy = Outcome.impossible s msgBlocked) ∧
    ((s.gameMap.in_bounds (e.x + dx) (e.y + dy) = true
          ∧ s.gameMap.tileWalkable? (e.x + dx) (e.y + dy) = some true
          ∧ s.get_blocking_entity_at_location (e.x + dx) (e.y + dy) = none) →
        MovementAction.perform s eid dx dy
          = Outcome.ok (s.updateActor eid (fun a => { a with x := a.x + dx, y := a.y + dy }))
        ∧ (s.updateActor eid (fun a => { a with x := a.x + dx, y := a.y + dy })).findActor eid
            = some { e with x := e.x + dx, y := e.y + dy }) := by
  constructor
  · intro hno
    unfold MovementAction.perform
    rw [he]
    by_cases hb : s.gameMap.in_bounds (e.x + dx) (e.y + dy) = true
    · obtain ⟨w, hw⟩ := Option.isSome_iff_exists.mp (tileWalkable?_isSome _ _ _ hwf hb)
      simp only [hb, hw, Bool.not_true, if_neg]
      cases w
      · simp
      · have hblock : s.get_blocking_entity_at_location (e.x + dx) (e.y + dy) ≠ none := by
          intro hn
          exact hno ⟨hb, hw, hn⟩
        have hbs : (s.get_blocking_entity_at_location (e.x + dx) (e.y + dy)).isSome = true :=
          Option.ne_none_iff_isSome.mp hblock
        simp [hbs]
    · simp only [Bool.not_eq_true] at hb
      simp [hb]
  · rintro ⟨hb, hw, hblock⟩
    constructor
    · unfold MovementAction.perform
      rw [he]
      simp [hb, hw, hblock]
    · rw [findActor_updateActor_self s eid
            (fun a => { a with x := a.x + dx, y := a.y + dy }) (fun a => rfl), he]
      rfl

/-- C3 witness: the demo player's step south passes all three checks and
lands exactly one tile away. -/
theorem movement_spec_witness :
    demoState.gameMap.WF ∧
    MovementAction.perform demoState 0 0 1
      = Outcome.ok (demoState.updateActor 0 (fun a => { a with x := a.x + 0, y := a.y + 1 })) :=
  ⟨by decide, ((movement_spec demoState 0 0 1 demoPlayer (by decide) rfl).2 ⟨rfl, rfl, rfl⟩).1⟩

/-- C4: a MeleeAction with a target actor at the destination succeeds;
with damage = attacker power − defender defense, a positive damage
lowers the defender's hit points by exactly that amount and a
non-positive damage leaves them unchanged (never increased); with no
target actor it rejects with the nothing-to-attack message. -/
theorem melee_spec (s : State) (eid : Nat) (dx dy : Int) (e : Actor)
    (hnd : (s.actors.map Actor.id).Nodup)
    (he : s.findActor eid = some e) :
    (s.get_actor_at_location (e.x + dx) (e.y + dy) = none →
        MeleeAction.perform s eid dx dy = Outcome.impossible s msgNothingToAttack) ∧
    (∀ t, s.get_actor_at_location (e.x + dx) (e.y + dy) = some t →
        ∃ s', MeleeAction.perform s eid dx dy = Outcome.ok s'
          ∧ (0 < e.fighter.power - t.fighter.defense →
                s'.findActor t.id = some { t with fighter :=
                  { t.fighter with hp := t.fighter.hp - (e.fighter.power - t.fighter.defense) } })
          ∧ (e.fighter.power - t.fighter.defense ≤ 0 →
                s'.findActor t.id = some t)) := by
  constructor
  · intro hnone
    unfold MeleeAction.perform
    simp only [he, hnone]
  · intro t ht
    have htmem : t ∈ s.actors := List.mem_of_find?_eq_some ht
    have htfind : s.findActor t.id = some t := find?_eq_of_mem_nodup s.actors t htmem hnd
    unfold MeleeAction.perform
    simp only [he, ht]
    by_cases hd : 0 < e.fighter.power - t.fighter.defense
    · refine ⟨_, by simp [hd]; rfl, fun _ => ?_, fun hc => absurd hd (by omega)⟩
      rw [findActor_updateActor_self _ t.id
            (fun a => { a with fighter :=
              { a.fighter with hp := a.fighter.hp - (e.fighter.power - t.fighter.defense) } })
            (fun a => rfl)]
      rw [findActor_addMessage, htfind]
      rfl
    · refine ⟨_, by simp [hd]; rfl, fun hc => absurd hc hd, fun _ => ?_⟩
      rw [findActor_addMessage, htfind]

/-- C4 witness: the demo player strikes the adjacent orc for 5 damage
and the orc's hit points drop by exactly 5. -/
theorem melee_spec_witness :
    demoState.get_actor_at_location (demoPlayer.x + 1) (demoPlayer.y + 0) = some demoOrc ∧
    (∃ s', MeleeAction.perform demoState 0 1 0 = Outcome.ok s'
      ∧ (0 < demoPlayer.fighter.power - demoOrc.fighter.defense →
            s'.findActor demoOrc.id = some { demoOrc with fighter :=
              { demoOrc.fighter with
                  hp := demoOrc.fighter.hp - (demoPlayer.fighter.power - demoOrc.fighter.defense) } })
      ∧ (demoPlayer.fighter.power - demoOrc.fighter.defense ≤ 0 →
            s'.findActor demoOrc.id = some demoOrc)) :=
  ⟨rfl, (melee_spec demoState 0 1 0 demoPlayer (by decide) rfl).2 demoOrc rfl⟩

end Rogue

namespace Rogue

/-- C5: with an item under the actor (the first such item in the world
collection's scan order) and strictly spare inventory capacity, a
PickupAction succeeds, removes exactly that item from the world item
collection, appends it to the end of the actor's inventory (the
inventory grows by exactly one), and the world no longer contains an
item of that identity. -/
theorem pickup_spec (s : State) (eid : Nat) (e : Actor) (item : Item)
    (he : s.findActor eid = some e)
    (hfind : s.items.find? (fun it => e.x == it.x && e.y == it.y) = some item)
    (hcap : e.inventoryItems.length < e.inventoryCapacity)
    (hndI : (s.items.map Item.id).Nodup) :
    ∃ s', PickupAction.perform s eid = Outcome.ok s'
      ∧ s'.findActor eid = some { e with inventoryItems := e.inventoryItems ++ [item] }
      ∧ s'.items = s.items.eraseP (fun it => it.id == item.id)
      ∧ s'.items.length + 1 = s.items.length
      ∧ item.id ∉ s'.items.map Item.id := by
  have hmem : item ∈ s.items := List.mem_of_find?_eq_some hfind
  refine ⟨(({ s with items := s.items.eraseP (fun it => it.id == item.id) }).updateActor eid
      (fun a => { a with inventoryItems := a.inventoryItems ++ [item] })).addMessage
        (pickupMsg item.name) MColor.white, ?_, ?_, rfl, ?_, ?_⟩
  · unfold PickupAction.perform
    simp only [he]
    rw [pickupLoop_found s eid e s.items item hfind, if_neg (by omega)]
  · rw [findActor_addMessage,
        findActor_updateActor_self _ eid
          (fun a => { a with inventoryItems := a.inventoryItems ++ [item] }) (fun a => rfl)]
    show (s.findActor eid).map _ = _
    rw [he]
    rfl
  · have h1 : (s.items.eraseP (fun it => it.id == item.id)).length = s.items.length - 1 :=
      List.length_eraseP_of_mem hmem (by simp)
    have h2 : 0 < s.items.length := List.length_pos_of_mem hmem
    show (s.items.eraseP (fun it => it.id == item.id)).length + 1 = s.items.length
    omega
  · exact id_not_mem_eraseP s.items item.id hndI

/-- C5 witness: the demo player picks up the potion under it; the potion
leaves the world collection and lands at the end of the inventory. -/
theorem pickup_spec_witness :
    demoState.items.find? (fun it => demoPlayer.x == it.x && demoPlayer.y == it.y)
        = some demoPotion ∧
    (∃ s', PickupAction.perform demoState 0 = Outcome.ok s'
      ∧ s'.findActor 0 = some { demoPlayer with
          inventoryItems := demoPlayer.inventoryItems ++ [demoPotion] }
      ∧ s'.items = demoState.items.eraseP (fun it => it.id == demoPotion.id)
      ∧ s'.items.length + 1 = demoState.items.length
      ∧ demoPotion.id ∉ s'.items.map Item.id) :=
  ⟨rfl, pickup_spec demoState 0 demoPlayer demoPotion rfl rfl (by decide) (by decide)⟩

/-- C6: dropping an item that is equipped in a non-armor category
succeeds within a single resolution: afterwards the item is unequipped,
absent from the actor's inventory, and present in the world collection
at the actor's current position. -/
theorem drop_equipped_nonarmor_spec (s : State) (eid : Nat) (e : Actor) (item : Item)
    (ty : EquipmentType)
    (he : s.findActor eid = some e)
    (hty : item.equippable = some ty)
    (hna : ty ≠ EquipmentType.armor)
    (hw : e.equipment.weaponId = some item.id)
    (harm2 : e.equipment.armorId ≠ some item.id)
    (hinv : e.inventoryItems.find? (fun it => it.id == item.id) = some item)
    (hndInv : (e.inventoryItems.map Item.id).Nodup) :
    ∃ s', DropAction.perform s eid item = Outcome.ok s'
      ∧ (∃ e', s'.findActor eid = some e'
          ∧ e'.equipment.item_is_equipped item.id = false
          ∧ item.id ∉ e'.inventoryItems.map Item.id)
      ∧ s'.items = s.items ++ [{ item with x := e.x, y := e.y }] := by
  cases ty with
  | armor => exact absurd rfl hna
  | weapon =>
    have hise : e.equipment.item_is_equipped item.id = true := by
      simp [Equipment.item_is_equipped, hw]
    have htog : e.equipment.toggle_equip item = some { e.equipment with weaponId := none } := by
      simp [Equipment.toggle_equip, hty, hw]
    have hfa1 : (s.updateActor eid
          (fun a => { a with equipment := { e.equipment with weaponId := none } })).findActor eid
        = some { e with equipment := { e.equipment with weaponId := none } } := by
      rw [findActor_updateActor_self s eid
            (fun a => { a with equipment := { e.equipment with weaponId := none } })
            (fun a => rfl), he]
      rfl
    have hstep : DropAction.perform s eid item
        = inventoryDrop (s.updateActor eid
            (fun a => { a with equipment := { e.equipment with weaponId := none } })) eid item.id := by
      unfold DropAction.perform
      simp only [he, hise, if_true, hty, htog]
      rfl
    rw [hstep]
    unfold inventoryDrop
    rw [hfa1]
    simp only [hinv]
    refine ⟨_, rfl, ?_, rfl⟩
    refine ⟨({ e with
        equipment := { e.equipment with weaponId := none },
        inventoryItems := e.inventoryItems.eraseP (fun it => it.id == item.id) } : Actor),
        ?_, ?_, ?_⟩
    · have he' : s.actors.find? (fun a => a.id == eid) = some e := he
      exact find?_double_update s.actors eid
        (fun a => { a with equipment := { e.equipment with weaponId := none } })
        (fun a => { a with inventoryItems := a.inventoryItems.eraseP (fun it => it.id == item.id) })
        (fun a => rfl) (fun a => rfl) e he'
    · simp [Equipment.item_is_equipped, harm2]
    · exact id_not_mem_eraseP e.inventoryItems item.id hndInv

/-- C6 witness: the demo player drops its equipped sword; afterwards the
sword is unequipped, out of the inventory, and lies on the floor at the
player's tile. -/
theorem drop_equipped_nonarmor_spec_witness :
    demoPlayer.equipment.weaponId = some demoSword.id ∧
    (∃ s', DropAction.perform demoState 0 demoSword = Outcome.ok s'
      ∧ (∃ e', s'.findActor 0 = some e'
          ∧ e'.equipment.item_is_equipped demoSword.id = false
          ∧ demoSword.id ∉ e'.inventoryItems.map Item.id)
      ∧ s'.items = demoState.items ++ [{ demoSword with x := demoPlayer.x, y := demoPlayer.y }]) :=
  ⟨rfl, drop_equipped_nonarmor_spec demoState 0 demoPlayer demoSword EquipmentType.weapon
    rfl rfl (by decide) rfl (by decide) rfl (by decide)⟩

/-- C7: dropping an item equipped in the armor category raises nothing:
it returns success, the only change to the world is exactly one warning
narration entry, and the actor collections (hence inventory and
equipment) and the item collection are untouched. -/
theorem drop_worn_armor_spec (s : State) (eid : Nat) (e : Actor) (item : Item)
    (he : s.findActor eid = some e)
    (harm : item.equippable = some EquipmentType.armor)
    (heq : e.equipment.item_is_equipped item.id = true) :
    DropAction.perform s eid item = Outcome.ok (s.addMessage msgCannotDropWorn MColor.invalid)
      ∧ (s.addMessage msgCannotDropWorn MColor.invalid).actors = s.actors
      ∧ (s.addMessage msgCannotDropWorn MColor.invalid).items = s.items
      ∧ (s.addMessage msgCannotDropWorn MColor.invalid).log
          = s.log ++ [(msgCannotDropWorn, MColor.invalid)] := by
  refine ⟨?_, rfl, rfl, rfl⟩
  unfold DropAction.perform
  simp only [he, heq, harm, if_true]
  rfl

/-- C7 witness: the demo player fails to drop the worn chain mail; the
world is unchanged but for the warning message. -/
theorem drop_worn_armor_spec_witness :
    demoPlayer.equipment.item_is_equipped demoArmor.id = true ∧
    DropAction.perform demoState 0 demoArmor
      = Outcome.ok (demoState.addMessage msgCannotDropWorn MColor.invalid) :=
  ⟨rfl, (drop_worn_armor_spec demoState 0 demoPlayer demoArmor rfl rfl rfl).1⟩

end Rogue

namespace Rogue

/-- C8: a TakeStairsAction going up, resolved by an actor on the
up-stairs tile (and not on the down-stairs tile), rejects with the
mission-incomplete message at floor number 1, carrying the unchanged
state; at a floor number strictly above 1 it succeeds, the floor number
drops by exactly one and exactly one ascend narration is emitted. -/
theorem stairs_up_spec (s : State) (eid : Nat) (e : Actor)
    (he : s.findActor eid = some e)
    (hup : (e.x, e.y) = s.gameMap.upstairsLocation)
    (hdn : (e.x, e.y) ≠ s.gameMap.downstairsLocation) :
    (s.floorNumber = 1 →
        TakeStairsAction.perform s eid false = Outcome.impossible s msgMissionIncomplete) ∧
    (1 < s.floorNumber →
        ∃ s', TakeStairsAction.perform s eid false = Outcome.ok s'
          ∧ s'.floorNumber + 1 = s.floorNumber
          ∧ s'.log = s.log ++ [(msgAscend, MColor.descend)]) := by
  have hmain : TakeStairsAction.perform s eid false = takeStairsUpCheck s eid false := by
    unfold TakeStairsAction.perform
    simp only [he, if_neg hdn]
  constructor
  · intro h1
    rw [hmain]
    unfold takeStairsUpCheck
    simp only [he, hup, if_pos, if_true, h1]
    rfl
  · intro h1
    rw [hmain]
    unfold takeStairsUpCheck
    have hne : ¬ s.floorNumber = 1 := by omega
    simp only [he, hup, if_pos, hne]
    refine ⟨_, rfl, ?_, ?_⟩
    · show s.floorNumber - 1 + 1 = s.floorNumber
      omega
    · rfl

/-- C8 witness: the demo player on the up-stairs at floor 1 is refused
and the carried state is the original world. -/
theorem stairs_up_spec_witness :
    demoStateUp.floorNumber = 1 ∧
    TakeStairsAction.perform demoStateUp 0 false
      = Outcome.impossible demoStateUp msgMissionIncomplete :=
  ⟨rfl, (stairs_up_spec demoStateUp 0 demoPlayerUp rfl (by decide) (by decide)).1 rfl⟩

/-- C9: on a well-formed map the destination bounds check of
MovementAction precedes the tile-grid lookup: every in-bounds coordinate
makes the guarded lookup succeed, and resolving a MovementAction never
reaches the lookup's out-of-range panic branch. -/
theorem movement_bounds_before_indexing (s : State) (eid : Nat) (dx dy : Int) (e : Actor)
    (hwf : s.gameMap.WF) (he : s.findActor eid = some e) :
    (∀ x y : Int, s.gameMap.in_bounds x y = true →
        (s.gameMap.tileWalkable? x y).isSome = true) ∧
    MovementAction.perform s eid dx dy ≠ Outcome.bug := by
  refine ⟨fun x y hb => tileWalkable?_isSome _ _ _ hwf hb, ?_⟩
  unfold MovementAction.perform
  rw [he]
  by_cases hb : s.gameMap.in_bounds (e.x + dx) (e.y + dy) = true
  · have := tileWalkable?_isSome _ _ _ hwf hb
    obtain ⟨w, hw⟩ := Option.isSome_iff_exists.mp this
    simp only [hb, Bool.not_true, if_neg, hw]
    cases w
    · simp
    · simp
      split <;> simp
  · simp only [Bool.not_eq_true] at hb
    simp [hb]

/-- C9 witness: the demo map is well-formed and the demo player's
southward move does not panic. -/
theorem movement_bounds_before_indexing_witness :
    demoState.gameMap.WF ∧ MovementAction.perform demoState 0 0 1 ≠ Outcome.bug :=
  ⟨by decide, (movement_bounds_before_indexing demoState 0 0 1 demoPlayer (by decide) rfl).2⟩

/-- C10: PickupAction checks capacity only after finding an item under
the actor: an actor with a full inventory gets the nothing-here
rejection when no item is underfoot and the inventory-full rejection
when one is; both rejections carry the unchanged world state. -/
theorem pickup_check_order_spec (s : State) (eid : Nat) (e : Actor)
    (he : s.findActor eid = some e)
    (hfull : e.inventoryItems.length = e.inventoryCapacity) :
    (s.items.find? (fun it => e.x == it.x && e.y == it.y) = none →
        PickupAction.perform s eid = Outcome.impossible s msgNothingHere) ∧
    (∀ item, s.items.find? (fun it => e.x == it.x && e.y == it.y) = some item →
        PickupAction.perform s eid = Outcome.impossible s msgInventoryFull) := by
  constructor
  · intro hn
    unfold PickupAction.perform
    simp only [he]
    exact pickupLoop_none s eid e s.items (List.find?_eq_none.mp hn)
  · intro item hfind
    unfold PickupAction.perform
    simp only [he]
    rw [pickupLoop_found s eid e s.items item hfind, if_pos (by omega)]

/-- C10 witness: the full-inventory demo player standing on the potion
gets the inventory-full rejection, with the world state unchanged. -/
theorem pickup_check_order_spec_witness :
    demoPlayerFull.inventoryItems.length = demoPlayerFull.inventoryCapacity ∧
    PickupAction.perform demoStateFull 0 = Outcome.impossible demoStateFull msgInventoryFull :=
  ⟨rfl, (pickup_check_order_spec demoStateFull 0 demoPlayerFull rfl rfl).2 demoPotion rfl⟩

end Rogue
